import Mathlib

/-!
Shallow embedding of the DocuSign-Convert client-side converter
(`js/converter.js` and `js/field-translators.js`): the JavaScript value model,
coordinate conversion, system-tab filter, field-name generation, the
field-translator dispatcher and the main conversion pipeline, together with
theorems settling specification claims C1 to C10.
-/

namespace DocuSign

/-- Model of a JavaScript value as it occurs in DocuSign tab records: a finite
number (as a rational), the floating-point NaN, a string, `undefined`, `null`,
or a boolean.  Arrays and nested objects are modelled separately by typed
fields of the record structures below. -/
inductive JSVal where
  | num (q : ℚ)
  | nan
  | str (s : String)
  | undef
  | jsNull
  | bool (b : Bool)
  deriving DecidableEq, Repr

/-- Truthiness of a JavaScript value, as used by `||`, `&&` and `if`:
`0`, `NaN`, the empty string, `undefined`, `null` and `false` are falsy. -/
def JSVal.truthy : JSVal → Bool
  | .num q => decide (q ≠ 0)
  | .nan => false
  | .str s => decide (s ≠ "")
  | .undef => false
  | .jsNull => false
  | .bool b => b

/-- JavaScript `a || b`: the first operand if truthy, otherwise the second. -/
def jsOr (a b : JSVal) : JSVal := if a.truthy then a else b

/-- Parse a maximal run of leading decimal digits; returns the accumulated
value, the number of digits consumed, and the remaining characters. -/
def parseDigitRunAux : List Char → ℕ → ℕ → ℕ × ℕ × List Char
  | [], acc, n => (acc, n, [])
  | c :: cs, acc, n =>
    if c.isDigit then parseDigitRunAux cs (acc * 10 + (c.toNat - 48)) (n + 1)
    else (acc, n, c :: cs)

/-- Model of JavaScript `parseFloat` on a character list: optional sign,
integer digits and an optional decimal fraction, parsing a maximal numeric
prefix.  The exponent form and leading whitespace, which no claim exercises,
are not modelled.  `none` stands for the result NaN. -/
def jsParseFloatChars (cs : List Char) : Option ℚ :=
  let signAndRest : Bool × List Char :=
    match cs with
    | '-' :: rest => (true, rest)
    | '+' :: rest => (false, rest)
    | _ => (false, cs)
  let neg := signAndRest.1
  let ipart := parseDigitRunAux signAndRest.2 0 0
  let ip := ipart.1
  let ic := ipart.2.1
  match ipart.2.2 with
  | '.' :: rest2 =>
    let fpart := parseDigitRunAux rest2 0 0
    let fp := fpart.1
    let fc := fpart.2.1
    if ic = 0 && fc = 0 then none
    else
      let mag : ℚ := (ip : ℚ) + (fp : ℚ) / ((10 : ℚ) ^ fc)
      some (if neg then -mag else mag)
  | _ =>
    if ic = 0 then none else some (if neg then -(ip : ℚ) else (ip : ℚ))

/-- JavaScript `parseFloat` applied to a value.  A non-string, non-number
argument is first converted to a string (`undefined` to `"undefined"`, `null`
to `"null"`, booleans to `"true"`/`"false"`), none of which parse, so those
cases yield NaN. -/
def jsParseFloat : JSVal → Option ℚ
  | .num q => some q
  | .nan => none
  | .str s => jsParseFloatChars s.toList
  | .undef => none
  | .jsNull => none
  | .bool _ => none

/-- NaN-propagating addition on JavaScript numbers. -/
def jsAdd : Option ℚ → Option ℚ → Option ℚ
  | some a, some b => some (a + b)
  | _, _ => none

/-- NaN-propagating subtraction on JavaScript numbers. -/
def jsSub : Option ℚ → Option ℚ → Option ℚ
  | some a, some b => some (a - b)
  | _, _ => none

/-- JavaScript `a <= b` against a numeric literal: false when `a` is NaN. -/
def jsLe (a : Option ℚ) (b : ℚ) : Bool :=
  match a with
  | some q => decide (q ≤ b)
  | none => false

/-- JavaScript `a === b` for a computed number against a numeric literal:
false when `a` is NaN. -/
def jsEqNum (a : Option ℚ) (b : ℚ) : Bool :=
  match a with
  | some q => decide (q = b)
  | none => false

/-- Rectangle in PDF user space as produced by the converter: lower-left and
upper-right corners, with NaN-propagating coordinates. -/
structure Rect where
  llx : Option ℚ
  lly : Option ℚ
  urx : Option ℚ
  ury : Option ℚ
  deriving DecidableEq, Repr

/-- Positional data shared by tab records and radio-option records: the eight
loosely-typed coordinate fields read by the coordinate conversions. -/
structure Geom where
  xPosition : JSVal
  xPositionString : JSVal
  yPosition : JSVal
  yPositionString : JSVal
  width : JSVal
  widthString : JSVal
  height : JSVal
  heightString : JSVal
  deriving DecidableEq, Repr

/-- A single radio-button option inside a radio-group tab. -/
structure Radio where
  xPosition : JSVal
  xPositionString : JSVal
  yPosition : JSVal
  yPositionString : JSVal
  width : JSVal
  widthString : JSVal
  height : JSVal
  heightString : JSVal
  value : JSVal
  text : JSVal
  selected : JSVal
  deriving DecidableEq, Repr

/-- Positional data of a radio-option record. -/
def Radio.geom (r : Radio) : Geom :=
  { xPosition := r.xPosition, xPositionString := r.xPositionString
    yPosition := r.yPosition, yPositionString := r.yPositionString
    width := r.width, widthString := r.widthString
    height := r.height, heightString := r.heightString }

/-- An entry of a dropdown-list tab's `listItems` array. -/
structure ListItem where
  text : JSVal
  value : JSVal
  selected : JSVal
  deriving DecidableEq, Repr

/-- A DocuSign tab record, with the loosely-typed fields the pipeline reads.
The `tabLabel` field is modelled as an optional string because the code calls
String methods on it; `radios` and `listItems` model the optional arrays of a
radio-group or list tab. -/
structure Tab where
  tabType : JSVal
  type : JSVal
  stampType : JSVal
  xPosition : JSVal
  xPositionString : JSVal
  yPosition : JSVal
  yPositionString : JSVal
  width : JSVal
  widthString : JSVal
  height : JSVal
  heightString : JSVal
  pageNumber : JSVal
  page : JSVal
  documentId : JSVal
  tabLabel : Option String
  name : JSVal
  value : JSVal
  defaultValue : JSVal
  text : JSVal
  font : JSVal
  selected : JSVal
  groupName : JSVal
  radios : Option (List Radio)
  listItems : Option (List ListItem)
  deriving DecidableEq, Repr

/-- Positional data of a tab record. -/
def Tab.geom (t : Tab) : Geom :=
  { xPosition := t.xPosition, xPositionString := t.xPositionString
    yPosition := t.yPosition, yPositionString := t.yPositionString
    width := t.width, widthString := t.widthString
    height := t.height, heightString := t.heightString }

/-- A tab record with every field absent, convenient for building concrete
tabs by structure update. -/
def Tab.empty : Tab :=
  { tabType := .undef, type := .undef, stampType := .undef
    xPosition := .undef, xPositionString := .undef
    yPosition := .undef, yPositionString := .undef
    width := .undef, widthString := .undef
    height := .undef, heightString := .undef
    pageNumber := .undef, page := .undef, documentId := .undef
    tabLabel := none, name := .undef, value := .undef, defaultValue := .undef
    text := .undef, font := .undef, selected := .undef, groupName := .undef
    radios := none, listItems := none }

/-- Conversion options recognized by the pipeline.  Boolean flags model the
truthiness tests the code performs on them; `rect` models the optional
pre-computed rectangle handed to the dispatcher. -/
structure ConvOptions where
  fieldWidth : JSVal
  fieldHeight : JSVal
  includeSystemTabs : Bool
  showFieldNames : Bool
  includeSignatureFields : Bool
  signatureAsText : Bool
  rect : Option Rect
  defaultValue : JSVal
  deriving DecidableEq, Repr

/-- Options object with every option absent or falsy. -/
def ConvOptions.plain : ConvOptions :=
  { fieldWidth := .undef, fieldHeight := .undef, includeSystemTabs := false
    showFieldNames := false, includeSignatureFields := false
    signatureAsText := false, rect := none, defaultValue := .undef }

/-- Lower-case a string character-wise, modelling `toLowerCase` on the ASCII
labels and tab types the converter handles. -/
def lowerStr (s : String) : String := String.mk (s.toList.map Char.toLower)

/-- Check whether the second list starts with the first list. -/
def listBegins : List Char → List Char → Bool
  | [], _ => true
  | _ :: _, [] => false
  | c :: cs, d :: ds => c = d && listBegins cs ds

/-- Check whether the second list contains the first list as a contiguous
sublist, modelling JavaScript `String.prototype.includes`. -/
def listHasSub (needle : List Char) : List Char → Bool
  | [] => listBegins needle []
  | c :: t => listBegins needle (c :: t) || listHasSub needle t

/-- JavaScript `hay.includes(needle)` on strings. -/
def strIncludes (hay needle : String) : Bool := listHasSub needle.toList hay.toList

/-- Check that every character of the list is a decimal digit. -/
def allDigits : List Char → Bool
  | [] => true
  | c :: cs => c.isDigit && allDigits cs

/-- Model of the regular expression test `^\d+_\d+$` used by the system-tab
heuristic: one or more digits, an underscore, then one or more digits. -/
def sysIdMatch (s : String) : Bool :=
  match s.toList.span Char.isDigit with
  | (pre, '_' :: post) => decide (pre ≠ []) && decide (post ≠ []) && allDigits post
  | _ => false

/-- Decimal digits of a positive number, most significant first, driven by a
fuel argument that always suffices. -/
def natDigitsAux : ℕ → ℕ → List Char
  | 0, _ => []
  | fuel + 1, n =>
    if n = 0 then [] else natDigitsAux fuel (n / 10) ++ [Char.ofNat (48 + n % 10)]

/-- Decimal rendering of a natural number. -/
def natToString (n : ℕ) : String :=
  if n = 0 then "0" else String.mk (natDigitsAux n n)

/-- Decimal rendering of an integer. -/
def intToString (i : ℤ) : String :=
  if i < 0 then "-" ++ natToString i.natAbs else natToString i.natAbs

/-- Model of JavaScript number-to-string conversion for the values this
pipeline stringifies.  It is exact for integers (the only numeric document
ids and labels that occur); a non-integral rational is rendered as a fraction,
which diverges from JavaScript's shortest-round-trip decimal form — no claim
depends on that case. -/
def ratToString (q : ℚ) : String :=
  if q.den = 1 then intToString q.num
  else intToString q.num ++ "/" ++ natToString q.den

/-- Model of JavaScript `String(v)`. -/
def jsToString : JSVal → String
  | .num q => ratToString q
  | .nan => "NaN"
  | .str s => s
  | .undef => "undefined"
  | .jsNull => "null"
  | .bool b => if b then "true" else "false"

/-- Read a value in a position where the code treats it as a string (template
literals and method calls on values that are strings in well-formed input). -/
def jsAsString : JSVal → String
  | .str s => s
  | v => jsToString v

/-- Characters admitted by the field-name sanitizer: the class `[a-zA-Z0-9_-]`
of the regular expression in `generateFieldName`. -/
def isNameChar (c : Char) : Bool :=
  ('a' ≤ c && c ≤ 'z') || ('A' ≤ c && c ≤ 'Z') || ('0' ≤ c && c ≤ '9') ||
    c = '_' || c = '-'

/-- Replacement performed by `name.replace(/[^a-zA-Z0-9_-]/g, "_")` on one
character. -/
def sanitizeChar (c : Char) : Char := if isNameChar c then c else '_'

/-- Character of one base-36 digit, as produced by `Number.prototype.toString`
with radix 36: `0`-`9` then `a`-`z`. -/
def base36Char (d : Fin 36) : Char :=
  if d.val < 10 then Char.ofNat (48 + d.val) else Char.ofNat (87 + d.val)

/-- Sources of nondeterminism consumed by the translators: the current time
`Date.now()`, the five base-36 digits taken from `Math.random().toString(36)`,
and the current locale date string used by date-signed fields. -/
structure Env where
  now : ℕ
  randDigits : List (Fin 36)
  localeDate : String
  deriving DecidableEq, Repr

/-- Embedding of `generateFieldName` (`js/field-translators.js`): pick
`fieldData.name || fieldData.tabLabel || Field_<now>`, replace every character
outside `[a-zA-Z0-9_-]` with an underscore, append `_<timestamp>_<random>` and
truncate to 60 characters.  The name and label are modelled as optional
strings (the code applies `String.prototype.replace` to them). -/
def generateFieldName (nameOpt tabLabelOpt : Option String) (env : Env) : String :=
  let base :=
    if (nameOpt.getD "") ≠ "" then nameOpt.getD ""
    else if (tabLabelOpt.getD "") ≠ "" then tabLabelOpt.getD ""
    else "Field_" ++ natToString env.now
  let cleaned := String.mk (base.toList.map sanitizeChar)
  let uniqueName :=
    cleaned ++ "_" ++ natToString env.now ++ "_" ++
      String.mk (env.randDigits.map base36Char)
  String.mk (uniqueName.toList.take 60)

/-- Per-kind default dimensions of the dispatcher's coordinate conversion
(`js/field-translators.js`): checkboxes 12 by 12, the signature family 120 by
20, and 120 by 20 for everything else. -/
def defaultDims (fieldType : String) : ℚ × ℚ :=
  if fieldType = "checkboxTabs" then (12, 12)
  else if fieldType = "signHereTabs" || fieldType = "initialHereTabs" ||
      fieldType = "stampTabs" then (120, 20)
  else (120, 20)

/-- Embedding of `getTabRectangle` (`js/converter.js`): parse position and
size with `parseFloat` over the `||` fallback chains (the generic size
defaults coming from the options or the 120 by 20 text default) and convert
the top-left-origin DocuSign coordinates to bottom-left-origin PDF
coordinates against the page height.  The `try`/`catch` of the source cannot
fire (property access and `parseFloat` do not throw), so the `null` branch is
unreachable and the result is a rectangle. -/
def getTabRectangle (tab : Tab) (pageHeight : ℚ) (opts : ConvOptions) : Rect :=
  let x := jsParseFloat (jsOr tab.xPosition (jsOr tab.xPositionString (.num 0)))
  let y := jsParseFloat (jsOr tab.yPosition (jsOr tab.yPositionString (.num 0)))
  let w := jsParseFloat
    (jsOr tab.width (jsOr tab.widthString (jsOr opts.fieldWidth (.num 120))))
  let h := jsParseFloat
    (jsOr tab.height (jsOr tab.heightString (jsOr opts.fieldHeight (.num 20))))
  { llx := x
    lly := jsSub (some pageHeight) (jsAdd y h)
    urx := jsAdd x w
    ury := jsSub (some pageHeight) y }

/-- Embedding of `convertDocuSignCoordinates` (`js/field-translators.js`):
parse position and size with `parseFloat` over the `||` fallback chains, with
per-kind default dimensions, and convert to PDF coordinates.  The source
computes `urx` and `ury` by adding the width and height to the lower-left
corner. -/
def convertDocuSignCoordinates (fd : Geom) (pageHeight : ℚ) (fieldType : String) : Rect :=
  let x := jsParseFloat (jsOr fd.xPosition (jsOr fd.xPositionString (.num 0)))
  let y := jsParseFloat (jsOr fd.yPosition (jsOr fd.yPositionString (.num 0)))
  let dims := defaultDims fieldType
  let w := jsParseFloat (jsOr fd.width (jsOr fd.widthString (.num dims.1)))
  let h := jsParseFloat (jsOr fd.height (jsOr fd.heightString (.num dims.2)))
  let pdfY := jsSub (some pageHeight) (jsAdd y h)
  { llx := x
    lly := pdfY
    urx := jsAdd x w
    ury := jsAdd pdfY h }

/-- Embedding of the inline fallback coordinate conversion inside
`translateField` (`js/field-translators.js`, used when the caller supplies no
pre-computed rectangle): same parsing and per-kind defaults as
`convertDocuSignCoordinates`, but `ury` is computed directly as
`pageHeight - y`. -/
def translateFieldFallbackCoords (fd : Geom) (fieldType : String) (pageHeight : ℚ) : Rect :=
  let x := jsParseFloat (jsOr fd.xPosition (jsOr fd.xPositionString (.num 0)))
  let y := jsParseFloat (jsOr fd.yPosition (jsOr fd.yPositionString (.num 0)))
  let dims := defaultDims fieldType
  let w := jsParseFloat (jsOr fd.width (jsOr fd.widthString (.num dims.1)))
  let h := jsParseFloat (jsOr fd.height (jsOr fd.heightString (.num dims.2)))
  { llx := x
    lly := jsSub (some pageHeight) (jsAdd y h)
    urx := jsAdd x w
    ury := jsSub (some pageHeight) y }

/-- Embedding of the system-tab heuristic inside the tab loop of
`convertDocuSignToPDF` (`js/converter.js`): position and size are re-parsed
with a 0 fallback, and the tab counts as a system tab when it is both very
small (width and height at most 1) and exactly at the origin, or when its
label matches the `\d+_\d+` pattern or contains `system` or `hidden` after
lower-casing.  In the source the underscore-containment test is conjoined
with the pattern test by operator precedence. -/
def isSystemTab (tab : Tab) : Bool :=
  let x := jsParseFloat (jsOr tab.xPosition (jsOr tab.xPositionString (.num 0)))
  let y := jsParseFloat (jsOr tab.yPosition (jsOr tab.yPositionString (.num 0)))
  let w := jsParseFloat (jsOr tab.width (jsOr tab.widthString (.num 0)))
  let h := jsParseFloat (jsOr tab.height (jsOr tab.heightString (.num 0)))
  let isVerySmall := jsLe w 1 && jsLe h 1
  let isAtOrigin := jsEqNum x 0 && jsEqNum y 0
  let hasSystemName :=
    match tab.tabLabel with
    | none => false
    | some lbl =>
      decide (lbl ≠ "") &&
        ((strIncludes lbl "_" && sysIdMatch lbl) ||
          strIncludes (lowerStr lbl) "system" ||
          strIncludes (lowerStr lbl) "hidden")
  (isVerySmall && isAtOrigin) || hasSystemName

/-- Suppression decision of the main loop: the heuristic applies only when
the caller has not opted to include system tabs. -/
def tabSuppressed (opts : ConvOptions) (tab : Tab) : Bool :=
  !opts.includeSystemTabs && isSystemTab tab

/-- Suppression condition exactly as claim C5 words it (for comparison with
the source-derived `tabSuppressed`): when the caller has not opted to
include system tabs, a tab is suppressed when its parsed width and height
are at most 1 and its position is exactly the origin, or its label matches
`^\d+_\d+$` or contains `system` or `hidden` case-insensitively. -/
def claimC5Suppressed (opts : ConvOptions) (tab : Tab) : Bool :=
  !opts.includeSystemTabs &&
    (((jsLe (jsParseFloat (jsOr tab.width (jsOr tab.widthString (.num 0)))) 1 &&
        jsLe (jsParseFloat (jsOr tab.height (jsOr tab.heightString (.num 0)))) 1) &&
      (jsEqNum (jsParseFloat (jsOr tab.xPosition (jsOr tab.xPositionString (.num 0)))) 0 &&
        jsEqNum (jsParseFloat (jsOr tab.yPosition (jsOr tab.yPositionString (.num 0)))) 0)) ||
      (match tab.tabLabel with
        | none => false
        | some lbl => sysIdMatch lbl || strIncludes (lowerStr lbl) "system" ||
            strIncludes (lowerStr lbl) "hidden"))

/-- An interactive form field as attached to an output page. -/
inductive PDFField where
  | textField (name : String) (text : String) (rect : Rect)
  | signatureField (name : String) (rect : Rect)
  | checkboxField (name : String) (checked : Bool) (rect : Rect)
  | radioGroupField (groupName : String) (options : List (String × Rect))
      (selected : Option String)
  | dropdownField (name : String) (options : List (String × String))
      (selected : Option String) (rect : Rect)
  deriving DecidableEq, Repr

/-- Abstract success flags of the underlying pdf-lib capabilities: whether
each field-construction call completes or throws, and whether the global
`window.createSignatureField` function is defined. -/
structure Caps where
  createTextFieldOk : Bool
  createSignatureFieldOk : Bool
  winSigDefined : Bool
  createCheckBoxOk : Bool
  createRadioGroupOk : Bool
  createDropdownOk : Bool
  deriving DecidableEq, Repr

/-- Capability state in which every construction succeeds. -/
def Caps.allOk : Caps :=
  { createTextFieldOk := true, createSignatureFieldOk := true
    winSigDefined := true, createCheckBoxOk := true
    createRadioGroupOk := true, createDropdownOk := true }

/-- Text that ends up in a created text field: `setText` runs on a truthy
value (in `js/converter.js` unconditionally, but an empty value sets the
empty text anyway). -/
def jsTextOf (v : JSVal) : String := if v.truthy then jsAsString v else ""

/-- Embedding of `createTextField` (`js/converter.js`): it has no internal
`try`, so a pdf-lib failure propagates to the caller as an error. -/
def createTextFieldM (name : String) (rect : Rect) (value : String)
    (caps : Caps) : Except String (List PDFField) :=
  if caps.createTextFieldOk then .ok [.textField name value rect]
  else .error "createTextField failed"

/-- Embedding of `createSignatureField` (`js/converter.js`): with the
`signatureAsText` option a text field carrying `[Signature]` is created
directly; otherwise a pdf-lib signature field is attempted and, if that
throws, the code falls back to the same `[Signature]` text field.  A failure
of the fallback text field itself propagates. -/
def createSignatureFieldM (name : String) (rect : Rect) (opts : ConvOptions)
    (caps : Caps) : Except String (List PDFField) :=
  if opts.signatureAsText then
    createTextFieldM name rect "[Signature]" caps
  else if caps.createSignatureFieldOk then .ok [.signatureField name rect]
  else createTextFieldM name rect "[Signature]" caps

/-- Embedding of `createDateField` (`js/converter.js`): a text field with the
`[Date]` placeholder. -/
def createDateFieldM (name : String) (rect : Rect) (caps : Caps) :
    Except String (List PDFField) :=
  createTextFieldM name rect "[Date]" caps

/-- Label field of a tab as a JavaScript value. -/
def Tab.tabLabelV (t : Tab) : JSVal :=
  match t.tabLabel with
  | some s => JSVal.str s
  | none => JSVal.undef

/-- String payload of a JavaScript value, when it is a string. -/
def JSVal.strOpt : JSVal → Option String
  | .str s => some s
  | _ => none

/-- Keys of the `FIELD_TRANSLATORS` registry (`js/field-translators.js`). -/
def registeredKinds : List String :=
  ["textTabs", "signHereTabs", "initialHereTabs", "stampTabs", "checkboxTabs",
   "radioGroupTabs", "listTabs", "fullNameTabs", "dateSignedTabs",
   "companyTabs", "titleTabs", "emailAddressTabs", "numericalTabs",
   "signerAttachmentTabs"]

/-- Embedding of `validateFieldData` (`js/field-translators.js`): the three
required positional properties must not be `undefined` or `null`, and the
kind-specific checks follow the source's `switch`.  The tab argument is
always an object in this model, so the typeof guard of the source holds. -/
def validateFieldData (fd : Tab) (fieldType : String) : Bool :=
  if fd.pageNumber = .undef || fd.pageNumber = .jsNull ||
      fd.xPosition = .undef || fd.xPosition = .jsNull ||
      fd.yPosition = .undef || fd.yPosition = .jsNull then false
  else if fieldType = "textTabs" then true
  else if fieldType = "signHereTabs" || fieldType = "initialHereTabs" then
    (jsOr fd.name fd.tabLabelV).truthy
  else if fieldType = "checkboxTabs" then true
  else if fieldType = "radioGroupTabs" then
    fd.groupName.truthy && fd.radios.isSome
  else if fieldType = "listTabs" then fd.listItems.isSome
  else true

/-- Embedding of `translateTextField` (`js/field-translators.js`). -/
def translateTextFieldM (fd : Tab) (coords : Rect) (caps : Caps)
    (opts : ConvOptions) (env : Env) : Bool × List PDFField :=
  let fieldName := generateFieldName fd.name.strOpt fd.tabLabel env
  let defaultValue := jsOr fd.value (jsOr opts.defaultValue (.str ""))
  if caps.createTextFieldOk then
    (true, [.textField fieldName (jsTextOf defaultValue) coords])
  else (false, [])

/-- Embedding of `translateSignatureField` (`js/field-translators.js`): it
returns false when `window.createSignatureField` is not a function, and
otherwise delegates to `createSignatureField` of `js/converter.js`, passing
the string `signature` in the options slot — so every option read inside,
including `signatureAsText`, is undefined.  An error of the delegate is
caught and reported as false. -/
def translateSignatureFieldM (fd : Tab) (coords : Rect) (caps : Caps)
    (env : Env) : Bool × List PDFField :=
  let fieldName := generateFieldName fd.name.strOpt fd.tabLabel env
  if !caps.winSigDefined then (false, [])
  else
    match createSignatureFieldM fieldName coords ConvOptions.plain caps with
    | .ok fs => (true, fs)
    | .error _ => (false, [])

/-- Embedding of `translateInitialsField` (`js/field-translators.js`): same
delegation as the signature translator (the string `initials` fills the
options slot), with a thrown `TypeError` on an undefined delegate caught and
reported as false. -/
def translateInitialsFieldM (fd : Tab) (coords : Rect) (caps : Caps)
    (env : Env) : Bool × List PDFField :=
  let fieldName := generateFieldName fd.name.strOpt fd.tabLabel env
  if !caps.winSigDefined then (false, [])
  else
    match createSignatureFieldM fieldName coords ConvOptions.plain caps with
    | .ok fs => (true, fs)
    | .error _ => (false, [])

/-- Embedding of `translateStampField` (`js/field-translators.js`): same
delegation as the signature translator. -/
def translateStampFieldM (fd : Tab) (coords : Rect) (caps : Caps)
    (env : Env) : Bool × List PDFField :=
  let fieldName := generateFieldName fd.name.strOpt fd.tabLabel env
  if !caps.winSigDefined then (false, [])
  else
    match createSignatureFieldM fieldName coords ConvOptions.plain caps with
    | .ok fs => (true, fs)
    | .error _ => (false, [])

/-- Embedding of `translateCheckboxField` (`js/field-translators.js`). -/
def translateCheckboxFieldM (fd : Tab) (coords : Rect) (caps : Caps)
    (env : Env) : Bool × List PDFField :=
  let fieldName := generateFieldName fd.name.strOpt fd.tabLabel env
  let isChecked := fd.selected = .bool true || fd.selected = .str "true"
  if caps.createCheckBoxOk then
    (true, [.checkboxField fieldName isChecked coords])
  else (false, [])

/-- Value assigned to the radio option at position `i`:
`radio.value || radio.text || option_<i>`, converted to a string, and
replaced by `option_<i>` when empty or literally `undefined` or `null`. -/
def radioValueOf (r : Radio) (i : ℕ) : String :=
  let v := jsOr r.value (jsOr r.text (.str ("option_" ++ natToString i)))
  let s := jsToString v
  if s = "" || s = "undefined" || s = "null" then "option_" ++ natToString i
  else s

/-- Option list built by the loop of `translateRadioGroupField`: each option
carries its value and a rectangle computed by `convertDocuSignCoordinates`
from that radio record's own position data. -/
def radioOptionsAux (pageHeight : ℚ) : List Radio → ℕ → List (String × Rect)
  | [], _ => []
  | r :: rs, i =>
    (radioValueOf r i,
      convertDocuSignCoordinates r.geom pageHeight "radioGroupTabs") ::
      radioOptionsAux pageHeight rs (i + 1)

/-- Selection state after the loop of `translateRadioGroupField`: each radio
whose `selected` is `true` or `"true"` selects its value, the last one
winning. -/
def radioSelectedAux : List Radio → ℕ → Option String → Option String
  | [], _, acc => acc
  | r :: rs, i, acc =>
    radioSelectedAux rs (i + 1)
      (if r.selected = .bool true || r.selected = .str "true"
        then some (radioValueOf r i) else acc)

/-- Embedding of `translateRadioGroupField` (`js/field-translators.js`).  The
`coords` parameter (the group tab's own rectangle) is received but never
used: every option rectangle comes from the option's own position data. -/
def translateRadioGroupFieldM (fd : Tab) (pageHeight : ℚ) (coords : Rect)
    (caps : Caps) : Bool × List PDFField :=
  let radios := fd.radios.getD []
  if radios.length = 0 then (false, [])
  else if caps.createRadioGroupOk then
    (true, [.radioGroupField (jsAsString fd.groupName)
      (radioOptionsAux pageHeight radios 0) (radioSelectedAux radios 0 none)])
  else (false, [])

/-- Selection state after the item loop of `translateListField`. -/
def listSelectedAux : List ListItem → Option String → Option String
  | [], acc => acc
  | it :: its, acc =>
    listSelectedAux its
      (if it.selected = .bool true || it.selected = .str "true"
        then some (jsAsString it.value) else acc)

/-- Embedding of `translateListField` (`js/field-translators.js`). -/
def translateListFieldM (fd : Tab) (coords : Rect) (caps : Caps) (env : Env) :
    Bool × List PDFField :=
  let fieldName := generateFieldName fd.name.strOpt fd.tabLabel env
  let listItems := fd.listItems.getD []
  if listItems.length = 0 then (false, [])
  else if caps.createDropdownOk then
    let pairs := listItems.map (fun it => (jsAsString it.text, jsAsString it.value))
    let selItems := listSelectedAux listItems none
    let sel := if fd.value.truthy then some (jsAsString fd.value) else selItems
    (true, [.dropdownField fieldName pairs sel coords])
  else (false, [])

/-- Embedding of `translateFullNameField` (`js/field-translators.js`). -/
def translateFullNameFieldM (fd : Tab) (coords : Rect) (caps : Caps)
    (env : Env) : Bool × List PDFField :=
  let fieldName := generateFieldName fd.name.strOpt fd.tabLabel env
  let defaultValue := jsOr fd.value (.str "[FULL NAME]")
  if caps.createTextFieldOk then
    (true, [.textField fieldName (jsAsString defaultValue) coords])
  else (false, [])

/-- Embedding of `translateDateSignedField` (`js/field-translators.js`): the
current locale date is set unconditionally. -/
def translateDateSignedFieldM (fd : Tab) (coords : Rect) (caps : Caps)
    (env : Env) : Bool × List PDFField :=
  let fieldName := generateFieldName fd.name.strOpt fd.tabLabel env
  if caps.createTextFieldOk then
    (true, [.textField fieldName env.localeDate coords])
  else (false, [])

/-- Embedding of `translateCompanyField` (`js/field-translators.js`). -/
def translateCompanyFieldM (fd : Tab) (coords : Rect) (caps : Caps)
    (env : Env) : Bool × List PDFField :=
  let fieldName := generateFieldName fd.name.strOpt fd.tabLabel env
  let defaultValue := jsOr fd.value (.str "[COMPANY]")
  if caps.createTextFieldOk then
    (true, [.textField fieldName (jsAsString defaultValue) coords])
  else (false, [])

/-- Embedding of `translateTitleField` (`js/field-translators.js`). -/
def translateTitleFieldM (fd : Tab) (coords : Rect) (caps : Caps)
    (env : Env) : Bool × List PDFField :=
  let fieldName := generateFieldName fd.name.strOpt fd.tabLabel env
  let defaultValue := jsOr fd.value (.str "[TITLE]")
  if caps.createTextFieldOk then
    (true, [.textField fieldName (jsAsString defaultValue) coords])
  else (false, [])

/-- Embedding of `translateEmailField` (`js/field-translators.js`). -/
def translateEmailFieldM (fd : Tab) (coords : Rect) (caps : Caps)
    (env : Env) : Bool × List PDFField :=
  let fieldName := generateFieldName fd.name.strOpt fd.tabLabel env
  let defaultValue := jsOr fd.value (.str "[EMAIL]")
  if caps.createTextFieldOk then
    (true, [.textField fieldName (jsAsString defaultValue) coords])
  else (false, [])

/-- Embedding of `translateNumericalField` (`js/field-translators.js`). -/
def translateNumericalFieldM (fd : Tab) (coords : Rect) (caps : Caps)
    (env : Env) : Bool × List PDFField :=
  let fieldName := generateFieldName fd.name.strOpt fd.tabLabel env
  let defaultValue := jsOr fd.value (.str "[NUMBER]")
  if caps.createTextFieldOk then
    (true, [.textField fieldName (jsAsString defaultValue) coords])
  else (false, [])

/-- Embedding of `translateSignerAttachmentField`
(`js/field-translators.js`). -/
def translateSignerAttachmentFieldM (fd : Tab) (coords : Rect) (caps : Caps)
    (env : Env) : Bool × List PDFField :=
  let fieldName := generateFieldName fd.name.strOpt fd.tabLabel env
  let attachmentName :=
    jsAsString (jsOr fd.tabLabelV (jsOr fd.name (.str "Attachment")))
  let an := lowerStr attachmentName
  let placeholderText :=
    if strIncludes an "lox" || strIncludes an "upload" || strIncludes an "loe" ||
        strIncludes an "cel" || strIncludes an "udn" then
      "[File Name/Description]"
    else "[Attachment File Name]"
  if caps.createTextFieldOk then
    (true, [.textField fieldName placeholderText coords])
  else (false, [])

/-- Embedding of `translateField` (`js/field-translators.js`): registry and
enabled checks, structural validation, coordinate selection (a pre-computed
rectangle from the options, otherwise the inline fallback conversion), then
dispatch to the per-kind translator.  The result pairs the returned boolean
with the field objects attached to the page; `enabled` models the mutable
enabled flags of the registry. -/
def translateField (fieldType : String) (fd : Tab) (pageHeight : ℚ)
    (enabled : String → Bool) (caps : Caps) (opts : ConvOptions) (env : Env) :
    Bool × List PDFField :=
  if !(registeredKinds.contains fieldType) then (false, [])
  else if !(enabled fieldType) then (false, [])
  else if !(validateFieldData fd fieldType) then (false, [])
  else
    let pdfCoords :=
      match opts.rect with
      | some r => r
      | none => translateFieldFallbackCoords fd.geom fieldType pageHeight
    if fieldType = "textTabs" then translateTextFieldM fd pdfCoords caps opts env
    else if fieldType = "signHereTabs" then
      translateSignatureFieldM fd pdfCoords caps env
    else if fieldType = "initialHereTabs" then
      translateInitialsFieldM fd pdfCoords caps env
    else if fieldType = "stampTabs" then translateStampFieldM fd pdfCoords caps env
    else if fieldType = "checkboxTabs" then
      translateCheckboxFieldM fd pdfCoords caps env
    else if fieldType = "radioGroupTabs" then
      translateRadioGroupFieldM fd pageHeight pdfCoords caps
    else if fieldType = "listTabs" then translateListFieldM fd pdfCoords caps env
    else if fieldType = "fullNameTabs" then
      translateFullNameFieldM fd pdfCoords caps env
    else if fieldType = "dateSignedTabs" then
      translateDateSignedFieldM fd pdfCoords caps env
    else if fieldType = "companyTabs" then
      translateCompanyFieldM fd pdfCoords caps env
    else if fieldType = "titleTabs" then translateTitleFieldM fd pdfCoords caps env
    else if fieldType = "emailAddressTabs" then
      translateEmailFieldM fd pdfCoords caps env
    else if fieldType = "numericalTabs" then
      translateNumericalFieldM fd pdfCoords caps env
    else translateSignerAttachmentFieldM fd pdfCoords caps env

/-- JavaScript strict equality (`===`) on the values compared by the
page-mapping lookup: values of different types are never equal and NaN is not
equal to anything. -/
def strictEq : JSVal → JSVal → Bool
  | .num a, .num b => decide (a = b)
  | .str a, .str b => decide (a = b)
  | .bool a, .bool b => a = b
  | .undef, .undef => true
  | .jsNull, .jsNull => true
  | _, _ => false

/-- Document-id key a tab gets in the main loop:
`tab.documentId ? String(tab.documentId) : null`. -/
def tabDocKey (t : Tab) : JSVal :=
  if t.documentId.truthy then .str (jsToString t.documentId) else .jsNull

/-- Model of `parseInt` applied to the page-number fallback chain: a number
is truncated toward zero, a string is parsed as an optional sign with a
decimal-digit prefix, and any other value gives NaN (`none`). -/
def parseIntJS : JSVal → Option ℤ
  | .num q => some (if q < 0 then -(Int.floor (-q)) else Int.floor q)
  | .str s =>
    match s.toList with
    | '-' :: rest =>
      let p := parseDigitRunAux rest 0 0
      if p.2.1 = 0 then none else some (-(p.1 : ℤ))
    | '+' :: rest =>
      let p := parseDigitRunAux rest 0 0
      if p.2.1 = 0 then none else some ((p.1 : ℤ))
    | cs =>
      let p := parseDigitRunAux cs 0 0
      if p.2.1 = 0 then none else some ((p.1 : ℤ))
  | _ => none

/-- Embedding of `getTabName` (`js/converter.js`): the first truthy of
label, name and document id (stringified by the template literal), suffixed
with the tab's loop index. -/
def getTabName (t : Tab) (index : ℕ) : String :=
  jsAsString (jsOr t.tabLabelV (jsOr t.name (jsOr t.documentId (.str "Field"))))
    ++ "_" ++ natToString index

/-- Model of one entry of the template's `documents` array, with the PDF
content abstracted to its page heights: `hasBase64` models the presence of
`documentBase64`/`documentBase64Bytes`, and `loadable` models whether
`PDFDocument.load` succeeds on the decoded bytes. -/
structure InputDoc where
  documentId : JSVal
  hasBase64 : Bool
  loadable : Bool
  pageHeights : List ℚ
  deriving DecidableEq, Repr

/-- An entry of the page-mapping table built during the merge phase. -/
structure PageMapEntry where
  docId : JSVal
  startPage : ℕ
  endPage : ℤ
  totalPages : ℕ
  deriving DecidableEq, Repr

/-- Page-mapping table built in document order over the successfully decoded
documents, as in the merge loop of `convertDocuSignToPDF`. -/
def buildMapping : List InputDoc → ℕ → List PageMapEntry
  | [], _ => []
  | d :: ds, start =>
    { docId := d.documentId, startPage := start
      endPage := (start : ℤ) + d.pageHeights.length - 1
      totalPages := d.pageHeights.length } ::
      buildMapping ds (start + d.pageHeights.length)

/-- Outcome of the tab-type dispatch chain in the main loop. -/
inductive DispatchKind where
  | text
  | signature
  | date
  | defaultText
  deriving DecidableEq, Repr

/-- Embedding of the dispatch chain of the main loop (`js/converter.js`):
text when the lower-cased tab type contains `text` or the tab has a truthy
`font` or `text` field; signature when it contains `signhere` or
`initialhere`; date when it contains `datesigned` or `date`; otherwise the
default text branch. -/
def converterDispatch (tabType : String) (fontV textV : JSVal) : DispatchKind :=
  if strIncludes tabType "text" || fontV.truthy || textV.truthy then .text
  else if strIncludes tabType "signhere" || strIncludes tabType "initialhere" then
    .signature
  else if strIncludes tabType "datesigned" || strIncludes tabType "date" then
    .date
  else .defaultText

/-- Embedding of one iteration of the tab loop of `convertDocuSignToPDF`
(`js/converter.js`): page-mapping lookup, destination-page bound check,
rectangle computation, system-tab filter, then the tab-type dispatch.  A tab
skipped by `continue` yields `ok []`.  When the page-number chain parses to
NaN the bound check passes (NaN compares false) and `getPage` throws inside
the loop; that is modelled as a library error. -/
def processOneTab (mapping : List PageMapEntry) (pageHeights : List ℚ)
    (t : Tab) (opts : ConvOptions) (caps : Caps) (index : ℕ) :
    Except String (List PDFField) :=
  let tabType := lowerStr (jsAsString (jsOr t.tabType (jsOr t.type (.str ""))))
  let docId := tabDocKey t
  match mapping.find? (fun m => strictEq m.docId docId) with
  | none => .ok []
  | some entry =>
    match parseIntJS (jsOr t.pageNumber (jsOr t.page (.num 1))) with
    | none => .error "invalid page index"
    | some p =>
      let absIdx : ℕ := entry.startPage + (max 0 (p - 1)).toNat
      if h : absIdx < pageHeights.length then
        let pageH := pageHeights.get ⟨absIdx, h⟩
        let rect := getTabRectangle t pageH opts
        if tabSuppressed opts t then .ok []
        else
          let fieldName := getTabName t index
          let dv0 := jsOr t.value (jsOr t.defaultValue (.str ""))
          let dv := if opts.showFieldNames && !dv0.truthy then
              JSVal.str ("[" ++ fieldName ++ "]")
            else dv0
          match converterDispatch tabType t.font t.text with
          | .text => createTextFieldM fieldName rect (jsTextOf dv) caps
          | .signature =>
            if opts.includeSignatureFields then
              createSignatureFieldM fieldName rect opts caps
            else .ok []
          | .date => createDateFieldM fieldName rect caps
          | .defaultText => createTextFieldM fieldName rect (jsTextOf dv) caps
      else .ok []

/-- Tab loop of `convertDocuSignToPDF`, threading the loop index; a thrown
field-creation error stops the loop and propagates. -/
def processTabsAux (mapping : List PageMapEntry) (pageHeights : List ℚ)
    (opts : ConvOptions) (caps : Caps) :
    List Tab → ℕ → Except String (List PDFField)
  | [], _ => .ok []
  | t :: ts, i =>
    match processOneTab mapping pageHeights t opts caps i with
    | .error m => .error m
    | .ok fs =>
      match processTabsAux mapping pageHeights opts caps ts (i + 1) with
      | .error m => .error m
      | .ok rest => .ok (fs ++ rest)

/-- Result of a completed conversion: the merged page count and the attached
form fields, in creation order. -/
structure Output where
  pageCount : ℕ
  fields : List PDFField
  deriving DecidableEq, Repr

/-- Body of the `try` block of `convertDocuSignToPDF` (`js/converter.js`):
input-shape checks, the merge phase building the page mapping, then the tab
loop.  Masking and saving, excluded collaborators, are not modelled. -/
def convertInner (docs : List InputDoc) (tabs : List Tab) (opts : ConvOptions)
    (caps : Caps) : Except String Output :=
  if docs.length = 0 then .error "No documents found in template JSON"
  else
    let pdfDocs := docs.filter (fun d => d.hasBase64 && d.loadable)
    if pdfDocs.length = 0 then .error "No valid PDF documents found in template"
    else
      let mapping := buildMapping pdfDocs 0
      let pageHeights := (pdfDocs.map (fun d => d.pageHeights)).flatten
      match processTabsAux mapping pageHeights opts caps tabs 0 with
      | .error m => .error m
      | .ok fields => .ok { pageCount := pageHeights.length, fields := fields }

/-- Embedding of `convertDocuSignToPDF` (`js/converter.js`): any error of the
body is caught and re-thrown as a single descriptive conversion failure. -/
def convertDocuSignToPDF (docs : List InputDoc) (tabs : List Tab)
    (opts : ConvOptions) (caps : Caps) : Except String Output :=
  match convertInner docs tabs opts caps with
  | .error m => .error ("PDF conversion failed: " ++ m)
  | .ok o => .ok o

/-- A concrete radio-option record at position (5, 5) with size 15 by 15 and
no value, text or selection, used as a test input. -/
def sampleRadio : Radio :=
  { xPosition := .num 5, xPositionString := .undef, yPosition := .num 5,
    yPositionString := .undef, width := .num 15, widthString := .undef,
    height := .num 15, heightString := .undef, value := .undef,
    text := .undef, selected := .undef }

/-- The same concrete radio-option record, but carrying the text `A` (and
still no value), used as a test input. -/
def sampleRadioText : Radio :=
  { sampleRadio with text := .str "A" }

/-- A concrete document entry with no decodable content, used as a test
input. -/
def badDoc : InputDoc :=
  { documentId := .str "1", hasBase64 := false, loadable := false,
    pageHeights := [] }

/-- A concrete decodable one-page document with the numeric id 1, used as a
test input. -/
def numIdDoc : InputDoc :=
  { documentId := .num 1, hasBase64 := true, loadable := true,
    pageHeights := [100] }

/-- A concrete tab referencing document 1 on page 1, used as a test input. -/
def numIdTab : Tab :=
  { Tab.empty with documentId := .num 1, pageNumber := .num 1 }

theorem jsOr_pos {a : JSVal} (b : JSVal) (h : a.truthy = true) : jsOr a b = a := by
  simp [jsOr, h]

theorem jsOr_neg {a : JSVal} (b : JSVal) (h : a.truthy = false) : jsOr a b = b := by
  simp [jsOr, h]

theorem jsOr_assoc (a b c : JSVal) : jsOr a (jsOr b c) = jsOr (jsOr a b) c := by
  unfold jsOr
  by_cases ha : a.truthy <;> by_cases hb : b.truthy <;> simp [ha, hb]

theorem jsOr_chain_truthy {a b : JSVal} (c : JSVal)
    (h : (jsOr a b).truthy = true) : jsOr a (jsOr b c) = jsOr a b := by
  rw [jsOr_assoc]
  exact jsOr_pos c h

theorem sanitizeChar_isNameChar (c : Char) : isNameChar (sanitizeChar c) = true := by
  unfold sanitizeChar
  by_cases h : isNameChar c <;> simp [h] <;> decide

theorem digit_isNameChar (k : ℕ) (h : k < 10) :
    isNameChar (Char.ofNat (48 + k)) = true := by
  interval_cases k <;> decide

theorem natDigitsAux_isNameChar (fuel : ℕ) :
    ∀ n, ∀ c ∈ natDigitsAux fuel n, isNameChar c = true := by
  induction fuel with
  | zero => intro n c hc; simp [natDigitsAux] at hc
  | succ fuel ih =>
    intro n c hc
    by_cases hn : n = 0
    · simp [natDigitsAux, hn] at hc
    · simp only [natDigitsAux, hn, if_false, List.mem_append, List.mem_singleton] at hc
      rcases hc with hc | hc
      · exact ih _ c hc
      · subst hc
        exact digit_isNameChar _ (Nat.mod_lt _ (by norm_num))

theorem natToString_isNameChar (n : ℕ) :
    ∀ c ∈ (natToString n).toList, isNameChar c = true := by
  unfold natToString
  by_cases hn : n = 0
  · intro c hc
    simp [hn] at hc
    subst hc
    decide
  · intro c hc
    simp only [hn, if_false] at hc
    exact natDigitsAux_isNameChar n n c hc

theorem base36Char_isNameChar : ∀ d : Fin 36, isNameChar (base36Char d) = true := by
  decide

theorem genName_chars (base ts : String) (rand : List (Fin 36)) (c : Char)
    (hc : c ∈ (String.mk ((String.mk (base.toList.map sanitizeChar) ++ "_" ++
      ts ++ "_" ++ String.mk (rand.map base36Char)).toList.take 60)).toList)
    (hts : ∀ d ∈ ts.toList, isNameChar d = true) :
    isNameChar c = true := by
  have hc1 : c ∈ (String.mk (base.toList.map sanitizeChar) ++ "_" ++ ts ++
      "_" ++ String.mk (rand.map base36Char)).toList :=
    List.take_subset 60 _ hc
  have hc2 : c ∈ (base.toList.map sanitizeChar) ++ ['_'] ++ ts.toList ++
      ['_'] ++ (rand.map base36Char) := hc1
  simp only [List.append_assoc, List.mem_append, List.mem_map, List.mem_cons,
    List.not_mem_nil, or_false] at hc2
  rcases hc2 with ⟨d, _, hd⟩ | hc2 | hc2 | hc2 | ⟨d, _, hd⟩
  · rw [← hd]; exact sanitizeChar_isNameChar d
  · subst hc2; decide
  · exact hts c hc2
  · subst hc2; decide
  · rw [← hd]; exact base36Char_isNameChar d

/-- C10: `generateFieldName` always returns a string of at most 60 characters
containing only characters in the class `[A-Za-z0-9_-]`: the name or label is
sanitized character-wise, the appended timestamp is decimal and the random
token consists of base-36 digits, and the result is truncated to 60. -/
theorem claim_C10_generateFieldName_valid (nameOpt tabLabelOpt : Option String)
    (env : Env) :
    (generateFieldName nameOpt tabLabelOpt env).length ≤ 60 ∧
      ∀ c ∈ (generateFieldName nameOpt tabLabelOpt env).toList,
        isNameChar c = true := by
  unfold generateFieldName
  constructor
  · show (List.take 60 _).length ≤ 60
    rw [List.length_take]
    exact min_le_left _ _
  · intro c hc
    exact genName_chars _ _ _ c hc (natToString_isNameChar env.now)

/-- C1 counterexample: the claim quantifies over every tab whose `width`
parses as a number, but a width stored as the number 0 parses as 0 while
being falsy, so the default (120) is parsed instead and the computed right
edge is `x + 120`, not `x + width = x + 0`.  Concretely, for a tab at
`(x=10, y=20, width=0, height=15)` on a page of height 100, the code yields
`urx = 130` where the claim requires `right = 10`. -/
theorem claim_C1_counterexample :
    (getTabRectangle
      { Tab.empty with
        xPosition := .num 10, yPosition := .num 20,
        width := .num 0, height := .num 15 } 100 ConvOptions.plain).urx =
      some 130 ∧ (130 : ℚ) ≠ 10 + 0 := by
  constructor
  · have h1 : jsParseFloat (jsOr (JSVal.num 10)
        (jsOr JSVal.undef (JSVal.num 0))) = some 10 := by decide
    have h2 : jsParseFloat (jsOr (JSVal.num 0) (jsOr JSVal.undef
        (jsOr JSVal.undef (JSVal.num 120)))) = some 120 := by decide
    simp only [getTabRectangle, Tab.empty, ConvOptions.plain, h1, h2, jsAdd]
    norm_num
  · norm_num

/-- C1 (amended): for every tab whose x and y chains parse as numbers and
whose `width`/`widthString` and `height`/`heightString` entries are truthy
and parse as numbers (a numeric 0 entry is falsy and is replaced by the
default size instead), both `getTabRectangle` and
`convertDocuSignCoordinates` return the rectangle `left = x`,
`bottom = H - (y + height)`, `right = x + width`, `top = H - y`. -/
theorem claim_C1_rectangle_formula (t : Tab) (H x y w h : ℚ) (ft : String)
    (opts : ConvOptions)
    (hx : jsParseFloat (jsOr t.xPosition (jsOr t.xPositionString (.num 0))) = some x)
    (hy : jsParseFloat (jsOr t.yPosition (jsOr t.yPositionString (.num 0))) = some y)
    (hwt : (jsOr t.width t.widthString).truthy = true)
    (hw : jsParseFloat (jsOr t.width t.widthString) = some w)
    (hht : (jsOr t.height t.heightString).truthy = true)
    (hh : jsParseFloat (jsOr t.height t.heightString) = some h) :
    getTabRectangle t H opts =
      { llx := some x, lly := some (H - (y + h)), urx := some (x + w),
        ury := some (H - y) } ∧
    convertDocuSignCoordinates t.geom H ft =
      { llx := some x, lly := some (H - (y + h)), urx := some (x + w),
        ury := some (H - y) } := by
  have hwc : ∀ X, jsOr t.width (jsOr t.widthString X) = jsOr t.width t.widthString :=
    fun X => jsOr_chain_truthy X hwt
  have hhc : ∀ X, jsOr t.height (jsOr t.heightString X) = jsOr t.height t.heightString :=
    fun X => jsOr_chain_truthy X hht
  constructor
  · simp only [getTabRectangle, hwc, hhc, hx, hy, hw, hh, jsAdd, jsSub]
  · simp only [convertDocuSignCoordinates, Tab.geom, hwc, hhc, hx, hy, hw, hh,
      jsAdd, jsSub, Rect.mk.injEq, Option.some.injEq]
    refine ⟨trivial, trivial, trivial, ?_⟩
    ring

/-- C1 witness: the claim's own example tab at `(x=10, y=20, width=100,
height=15)` on a page of height 100 converts to the rectangle
`{left=10, bottom=65, right=110, top=80}` under both conversions. -/
theorem claim_C1_rectangle_formula_witness :
    getTabRectangle
      { Tab.empty with
        xPosition := .num 10, yPosition := .num 20,
        width := .num 100, height := .num 15 } 100 ConvOptions.plain =
      { llx := some 10, lly := some (100 - (20 + 15)), urx := some (10 + 100),
        ury := some (100 - 20) } ∧
    convertDocuSignCoordinates
      (Tab.geom { Tab.empty with
        xPosition := .num 10, yPosition := .num 20,
        width := .num 100, height := .num 15 }) 100 "textTabs" =
      { llx := some 10, lly := some (100 - (20 + 15)), urx := some (10 + 100),
        ury := some (100 - 20) } :=
  claim_C1_rectangle_formula _ 100 10 20 100 15 "textTabs" ConvOptions.plain
    (by decide) (by decide) (by decide) (by decide) (by decide) (by decide)

/-- C2 counterexample: the claim states every converted rectangle satisfies
`right ≥ left` and `top ≥ bottom` because a parsed width or height that is
at most 0 or unparseable is replaced by the per-kind default; but the code
substitutes the default only for falsy entries, so a width or height given
as the string `"-5"` (truthy, parsing to -5) reaches geometry and produces
`right = 5 < left = 10` and `top = 90 < bottom = 95`. -/
theorem claim_C2_counterexample :
    convertDocuSignCoordinates
      { xPosition := .num 10, xPositionString := .undef, yPosition := .num 10,
        yPositionString := .undef, width := .str "-5", widthString := .undef,
        height := .str "-5", heightString := .undef } 100 "checkboxTabs" =
      { llx := some 10, lly := some 95, urx := some 5, ury := some 90 } ∧
    ¬ ((10 : ℚ) ≤ 5) ∧ ¬ ((95 : ℚ) ≤ 90) := by
  refine ⟨?_, by norm_num, by norm_num⟩
  have hd : defaultDims "checkboxTabs" = (12, 12) := by decide
  have h1 : jsParseFloat (jsOr (JSVal.num 10)
      (jsOr JSVal.undef (JSVal.num 0))) = some 10 := by decide
  have h2 : jsParseFloat (jsOr (JSVal.str "-5")
      (jsOr JSVal.undef (JSVal.num 12))) = some (-5) := by decide
  simp only [convertDocuSignCoordinates, hd, h1, h2, jsAdd, jsSub,
    Rect.mk.injEq]
  norm_num

/-- C2 (amended): the per-kind default dimensions are substituted exactly
when the width/height entries are falsy (absent, empty, or the number 0) —
not whenever the parsed value is nonpositive or unparseable.  For a tab with
falsy size entries and parsing position, the dispatcher conversions produce
a rectangle whose width and height are the per-kind defaults (12 by 12 for
checkboxes, 120 by 20 otherwise), which are positive, so `right > left` and
`top > bottom`; `getTabRectangle` likewise falls back to its 120 by 20 text
default when the option overrides are also falsy. -/
theorem claim_C2_default_dims (t : Tab) (H x y : ℚ) (ft : String)
    (opts : ConvOptions)
    (hx : jsParseFloat (jsOr t.xPosition (jsOr t.xPositionString (.num 0))) = some x)
    (hy : jsParseFloat (jsOr t.yPosition (jsOr t.yPositionString (.num 0))) = some y)
    (hw : t.width.truthy = false) (hws : t.widthString.truthy = false)
    (hh : t.height.truthy = false) (hhs : t.heightString.truthy = false)
    (hfw : opts.fieldWidth.truthy = false) (hfh : opts.fieldHeight.truthy = false) :
    convertDocuSignCoordinates t.geom H ft =
      { llx := some x, lly := some (H - (y + (defaultDims ft).2)),
        urx := some (x + (defaultDims ft).1),
        ury := some (H - (y + (defaultDims ft).2) + (defaultDims ft).2) } ∧
    translateFieldFallbackCoords t.geom ft H =
      { llx := some x, lly := some (H - (y + (defaultDims ft).2)),
        urx := some (x + (defaultDims ft).1), ury := some (H - y) } ∧
    getTabRectangle t H opts =
      { llx := some x, lly := some (H - (y + 20)), urx := some (x + 120),
        ury := some (H - y) } ∧
    x ≤ x + (defaultDims ft).1 ∧
    H - (y + (defaultDims ft).2) ≤ H - y ∧
    (0 : ℚ) < (defaultDims ft).1 ∧ (0 : ℚ) < (defaultDims ft).2 ∧
    defaultDims "checkboxTabs" = (12, 12) ∧
    defaultDims "signHereTabs" = (120, 20) := by
  have hdp : (0 : ℚ) < (defaultDims ft).1 ∧ (0 : ℚ) < (defaultDims ft).2 := by
    unfold defaultDims
    split_ifs <;> norm_num
  have hwchain : ∀ X, jsOr t.width (jsOr t.widthString X) = X := by
    intro X; rw [jsOr_neg _ hw, jsOr_neg _ hws]
  have hhchain : ∀ X, jsOr t.height (jsOr t.heightString X) = X := by
    intro X; rw [jsOr_neg _ hh, jsOr_neg _ hhs]
  refine ⟨?_, ?_, ?_, ?_, ?_, hdp.1, hdp.2, by decide, by decide⟩
  · unfold convertDocuSignCoordinates Tab.geom
    simp only
    rw [hwchain, hhchain, hx, hy]
    simp only [jsParseFloat, jsAdd, jsSub]
  · unfold translateFieldFallbackCoords Tab.geom
    simp only
    rw [hwchain, hhchain, hx, hy]
    simp only [jsParseFloat, jsAdd, jsSub]
  · unfold getTabRectangle
    rw [hwchain, hhchain, jsOr_neg _ hfw, jsOr_neg _ hfh, hx, hy]
    simp only [jsParseFloat, jsAdd, jsSub]
  · linarith [hdp.1]
  · linarith [hdp.2]

/-- C2 witness: the claim's own example — a checkbox tab with numeric
`width = 0` and `height = 0` (falsy entries) at `(10, 20)` on a page of
height 100 — receives the 12 by 12 checkbox default rectangle. -/
theorem claim_C2_default_dims_witness :
    convertDocuSignCoordinates
      (Tab.geom { Tab.empty with
        xPosition := .num 10, yPosition := .num 20,
        width := .num 0, height := .num 0 }) 100 "checkboxTabs" =
      { llx := some 10, lly := some (100 - (20 + (defaultDims "checkboxTabs").2)),
        urx := some (10 + (defaultDims "checkboxTabs").1),
        ury := some (100 - (20 + (defaultDims "checkboxTabs").2) +
          (defaultDims "checkboxTabs").2) } ∧
    translateFieldFallbackCoords
      (Tab.geom { Tab.empty with
        xPosition := .num 10, yPosition := .num 20,
        width := .num 0, height := .num 0 }) "checkboxTabs" 100 =
      { llx := some 10, lly := some (100 - (20 + (defaultDims "checkboxTabs").2)),
        urx := some (10 + (defaultDims "checkboxTabs").1), ury := some (100 - 20) } ∧
    getTabRectangle
      { Tab.empty with
        xPosition := .num 10, yPosition := .num 20,
        width := .num 0, height := .num 0 } 100 ConvOptions.plain =
      { llx := some 10, lly := some (100 - (20 + 20)), urx := some (10 + 120),
        ury := some (100 - 20) } ∧
    (10 : ℚ) ≤ 10 + (defaultDims "checkboxTabs").1 ∧
    (100 : ℚ) - (20 + (defaultDims "checkboxTabs").2) ≤ 100 - 20 ∧
    (0 : ℚ) < (defaultDims "checkboxTabs").1 ∧
    (0 : ℚ) < (defaultDims "checkboxTabs").2 ∧
    defaultDims "checkboxTabs" = (12, 12) ∧
    defaultDims "signHereTabs" = (120, 20) :=
  claim_C2_default_dims _ 100 10 20 "checkboxTabs" ConvOptions.plain
    (by decide) (by decide) (by decide) (by decide) (by decide) (by decide)
    (by decide) (by decide)

/-- C3 counterexample: the converter's tab-type resolution
(`js/converter.js`, dispatch chain of the main loop) has no attachment
branch at all, so a tab with `tabType = "signerattachment"` is not
classified as `signerAttachment`: it falls through every substring test to
the default text branch, and the processed tab yields a plain empty text
field rather than an attachment field.  (It is indeed never classified as a
signature: that half of the claim holds.) -/
theorem claim_C3_counterexample :
    converterDispatch "signerattachment" JSVal.undef JSVal.undef =
      DispatchKind.defaultText ∧
    DispatchKind.defaultText ≠ DispatchKind.signature ∧
    processOneTab
      [{ docId := .str "1", startPage := 0, endPage := 0, totalPages := 1 }]
      [100]
      { Tab.empty with
        tabType := .str "signerAttachment", documentId := .str "1",
        pageNumber := .num 1, xPosition := .num 10, yPosition := .num 20,
        tabLabel := some "Upload" }
      ConvOptions.plain Caps.allOk 0 =
      .ok [.textField "Upload_0" ""
        (getTabRectangle
          { Tab.empty with
            tabType := .str "signerAttachment", documentId := .str "1",
            pageNumber := .num 1, xPosition := .num 10, yPosition := .num 20,
            tabLabel := some "Upload" } 100 ConvOptions.plain)] := by
  refine ⟨by decide, by decide, ?_⟩
  rfl

/-- C3 (amended): a tab whose lower-cased tab type is `signerattachment` is
never dispatched to signature-field creation — the `signhere`/`initialhere`
substring tests fail — but the converter resolves it to a text branch (the
`text` branch when the tab has a truthy `font` or `text` field, otherwise
the default text branch), not to a `signerAttachment` kind, which the
converter's tab-type resolution does not have. -/
theorem claim_C3_never_signature (fontV textV : JSVal) :
    converterDispatch "signerattachment" fontV textV ≠ DispatchKind.signature ∧
    (converterDispatch "signerattachment" fontV textV = DispatchKind.text ∨
      converterDispatch "signerattachment" fontV textV = DispatchKind.defaultText) := by
  have h1 : strIncludes "signerattachment" "text" = false := by decide
  have h2 : strIncludes "signerattachment" "signhere" = false := by decide
  have h3 : strIncludes "signerattachment" "initialhere" = false := by decide
  have h4 : strIncludes "signerattachment" "datesigned" = false := by decide
  have h5 : strIncludes "signerattachment" "date" = false := by decide
  unfold converterDispatch
  rw [h1, h2, h3, h4, h5]
  by_cases hf : fontV.truthy <;> by_cases ht : textV.truthy <;> simp [hf, ht]

/-- C4 counterexample: when pdf-lib signature-field construction fails, the
fallback field's text is the literal `[Signature]` — there is no styled
`[SIGN HERE]`/`[INITIAL HERE]` tier and no final `[Signature Required]`
tier, so the claimed triple-tier fallback does not match the code. -/
theorem claim_C4_counterexample :
    createSignatureFieldM "Sig"
      { llx := some 0, lly := some 0, urx := some 120, ury := some 20 }
      ConvOptions.plain
      { Caps.allOk with createSignatureFieldOk := false } =
      .ok [.textField "Sig" "[Signature]"
        { llx := some 0, lly := some 0, urx := some 120, ury := some 20 }] ∧
    "[Signature]" ≠ "[SIGN HERE]" ∧ "[Signature]" ≠ "[INITIAL HERE]" ∧
    "[Signature]" ≠ "[Signature Required]" := by
  refine ⟨rfl, by decide, by decide, by decide⟩

/-- C4 (amended): if pdf-lib signature-field construction fails for a
signHere or initialHere tab, the pipeline falls back in a single tier to a
plain text field carrying the literal placeholder `[Signature]`, attached at
the same rectangle, and the conversion does not abort: provided text-field
creation succeeds, `createSignatureField` returns the fallback field and the
dispatcher translators for signatures and initials report success with that
field attached. -/
theorem claim_C4_signature_fallback (name : String) (rect : Rect)
    (opts : ConvOptions) (caps : Caps) (fd : Tab) (env : Env)
    (hsig : caps.createSignatureFieldOk = false)
    (htxt : caps.createTextFieldOk = true)
    (hwin : caps.winSigDefined = true) :
    createSignatureFieldM name rect opts caps =
      .ok [.textField name "[Signature]" rect] ∧
    translateSignatureFieldM fd rect caps env =
      (true, [.textField (generateFieldName fd.name.strOpt fd.tabLabel env)
        "[Signature]" rect]) ∧
    translateInitialsFieldM fd rect caps env =
      (true, [.textField (generateFieldName fd.name.strOpt fd.tabLabel env)
        "[Signature]" rect]) := by
  have hc : createSignatureFieldM (generateFieldName fd.name.strOpt fd.tabLabel env)
      rect ConvOptions.plain caps =
      .ok [.textField (generateFieldName fd.name.strOpt fd.tabLabel env)
        "[Signature]" rect] := by
    unfold createSignatureFieldM createTextFieldM ConvOptions.plain
    simp [hsig, htxt]
  refine ⟨?_, ?_, ?_⟩
  · unfold createSignatureFieldM createTextFieldM
    by_cases hat : opts.signatureAsText <;> simp [hat, hsig, htxt]
  · unfold translateSignatureFieldM
    simp [hwin, hc]
  · unfold translateInitialsFieldM
    simp [hwin, hc]

/-- C4 witness: a concrete failing signature capability with a working text
capability produces the `[Signature]` fallback field at the given rectangle
through `createSignatureField` and through both dispatcher translators. -/
theorem claim_C4_signature_fallback_witness :
    createSignatureFieldM "S"
      { llx := some 1, lly := some 2, urx := some 3, ury := some 4 }
      ConvOptions.plain
      { Caps.allOk with createSignatureFieldOk := false } =
      .ok [.textField "S" "[Signature]"
        { llx := some 1, lly := some 2, urx := some 3, ury := some 4 }] ∧
    translateSignatureFieldM Tab.empty
      { llx := some 1, lly := some 2, urx := some 3, ury := some 4 }
      { Caps.allOk with createSignatureFieldOk := false }
      { now := 0, randDigits := [], localeDate := "" } =
      (true, [.textField (generateFieldName Tab.empty.name.strOpt
        Tab.empty.tabLabel { now := 0, randDigits := [], localeDate := "" })
        "[Signature]"
        { llx := some 1, lly := some 2, urx := some 3, ury := some 4 }]) ∧
    translateInitialsFieldM Tab.empty
      { llx := some 1, lly := some 2, urx := some 3, ury := some 4 }
      { Caps.allOk with createSignatureFieldOk := false }
      { now := 0, randDigits := [], localeDate := "" } =
      (true, [.textField (generateFieldName Tab.empty.name.strOpt
        Tab.empty.tabLabel { now := 0, randDigits := [], localeDate := "" })
        "[Signature]"
        { llx := some 1, lly := some 2, urx := some 3, ury := some 4 }]) :=
  claim_C4_signature_fallback "S" _ ConvOptions.plain _ Tab.empty _
    (by decide) (by decide) (by decide)

theorem listBegins_refl_singleton (c : Char) (t : List Char) :
    listBegins [c] (c :: t) = true := by
  simp [listBegins]

theorem listHasSub_singleton_of_mem (c : Char) (l : List Char) (h : c ∈ l) :
    listHasSub [c] l = true := by
  induction l with
  | nil => simp at h
  | cons d t ih =>
    rcases List.mem_cons.mp h with h | h
    · subst h
      unfold listHasSub
      rw [listBegins_refl_singleton]
      simp
    · unfold listHasSub
      rw [ih h]
      simp

theorem sysIdMatch_underscore (s : String) (h : sysIdMatch s = true) :
    strIncludes s "_" = true := by
  unfold sysIdMatch at h
  rw [List.span_eq_take_drop] at h
  have hmem : '_' ∈ s.toList := by
    rcases hdw : s.toList.dropWhile Char.isDigit with _ | ⟨c, post⟩
    · rw [hdw] at h; simp at h
    · rw [hdw] at h
      by_cases hc : c = '_'
      · subst hc
        have : s.toList = s.toList.takeWhile Char.isDigit ++ '_' :: post := by
          rw [← hdw, List.takeWhile_append_dropWhile]
        rw [this]
        simp
      · exfalso
        revert h
        split
        · rename_i heq
          have h2 := congrArg Prod.snd heq
          simp only [List.cons.injEq] at h2
          exact fun _ => hc h2.1
        · simp
  show listHasSub "_".toList s.toList = true
  exact listHasSub_singleton_of_mem '_' s.toList hmem

/-- C5: the suppression filter of the main loop agrees exactly with the
claim's description — a tab is suppressed iff system tabs are not included
and either its parsed width and height are at most 1 with the position
exactly at the origin, or its label matches `^\d+_\d+$` or contains `system`
or `hidden` case-insensitively (the source's extra underscore-containment
conjunct is implied by the pattern, and its label-truthiness guard is
implied by the three label tests, so both are redundant); in particular an
unlabeled tab at the origin with width 1 and height 1 is dropped when
`includeSystemTabs` is false and retained when it is true. -/
theorem claim_C5_system_tab_filter :
    (∀ (opts : ConvOptions) (tab : Tab),
      tabSuppressed opts tab = claimC5Suppressed opts tab) ∧
    tabSuppressed
      { ConvOptions.plain with includeSystemTabs := false }
      { Tab.empty with
        xPosition := .num 0, yPosition := .num 0,
        width := .num 1, height := .num 1 } = true ∧
    tabSuppressed
      { ConvOptions.plain with includeSystemTabs := true }
      { Tab.empty with
        xPosition := .num 0, yPosition := .num 0,
        width := .num 1, height := .num 1 } = false := by
  refine ⟨?_, by decide, by decide⟩
  intro opts tab
  simp only [tabSuppressed, isSystemTab, claimC5Suppressed]
  congr 1
  congr 1
  rcases hl : tab.tabLabel with _ | lbl
  · rfl
  · dsimp only
    by_cases he : lbl = ""
    · subst he; decide
    · have hd : (decide (lbl ≠ "")) = true := by simp [he]
      rw [hd, Bool.true_and]
      by_cases hm : sysIdMatch lbl = true
      · rw [hm, sysIdMatch_underscore lbl hm]
        simp
      · rw [Bool.not_eq_true] at hm
        rw [hm]
        simp

/-- C6 counterexample: the claim's structural validation requires a
non-empty name-or-label for signature-family kinds, but `validateFieldData`
name-checks only `signHereTabs` and `initialHereTabs`; a `stampTabs` tab
with no name and no label passes validation and, with working capabilities,
`translateField` returns true and attaches a field instead of returning
false with nothing attached. -/
theorem claim_C6_counterexample :
    validateFieldData
      { Tab.empty with
        pageNumber := .num 1, xPosition := .num 10, yPosition := .num 20 }
      "signHereTabs" = false ∧
    validateFieldData
      { Tab.empty with
        pageNumber := .num 1, xPosition := .num 10, yPosition := .num 20 }
      "stampTabs" = true ∧
    (translateField "stampTabs"
      { Tab.empty with
        pageNumber := .num 1, xPosition := .num 10, yPosition := .num 20 }
      100 (fun _ => true) Caps.allOk ConvOptions.plain
      { now := 0, randDigits := [], localeDate := "" }).1 = true ∧
    (translateField "stampTabs"
      { Tab.empty with
        pageNumber := .num 1, xPosition := .num 10, yPosition := .num 20 }
      100 (fun _ => true) Caps.allOk ConvOptions.plain
      { now := 0, randDigits := [], localeDate := "" }).2 ≠ [] := by
  refine ⟨by decide, by decide, by decide, by decide⟩

/-- C6 (amended): `translateField` returns false and attaches no field
whenever the kind is not registered, the kind is disabled, the tab fails
`validateFieldData` (radio groups need a truthy `groupName` and a `radios`
array, lists need a `listItems` array, signHere and initialHere need a
truthy name-or-label — stamp tabs are not name-validated — and every kind
needs `pageNumber`, `xPosition` and `yPosition` present), or a radio group's
`radios` list or a list tab's `listItems` list is empty. -/
theorem claim_C6_translateField_false (fieldType : String) (fd : Tab) (H : ℚ)
    (enabled : String → Bool) (caps : Caps) (opts : ConvOptions) (env : Env)
    (h : registeredKinds.contains fieldType = false ∨
      enabled fieldType = false ∨
      validateFieldData fd fieldType = false ∨
      (fieldType = "radioGroupTabs" ∧ fd.radios = some []) ∨
      (fieldType = "listTabs" ∧ fd.listItems = some [])) :
    translateField fieldType fd H enabled caps opts env = (false, []) := by
  rcases h with h | h | h | ⟨hft, hr⟩ | ⟨hft, hl⟩
  · have h1 : ¬ fieldType ∈ registeredKinds := by simpa using h
    simp [translateField, h1]
  · by_cases hreg : fieldType ∈ registeredKinds
    · simp [translateField, hreg, h]
    · simp [translateField, hreg]
  · by_cases hreg : fieldType ∈ registeredKinds
    · by_cases hen : enabled fieldType
      · simp [translateField, hreg, hen, h]
      · simp [translateField, hreg, hen]
    · simp [translateField, hreg]
  · subst hft
    by_cases hen : enabled "radioGroupTabs"
    · by_cases hv : validateFieldData fd "radioGroupTabs"
      · simp [translateField, hen, hv, translateRadioGroupFieldM, hr]
      · simp [translateField, hen, hv]
    · simp [translateField, hen]
  · subst hft
    by_cases hen : enabled "listTabs"
    · by_cases hv : validateFieldData fd "listTabs"
      · simp [translateField, hen, hv, translateListFieldM, hl]
      · simp [translateField, hen, hv]
    · simp [translateField, hen]

/-- C6 witness: an unregistered kind concretely yields false with no field
attached. -/
theorem claim_C6_translateField_false_witness :
    translateField "bogusTabs" Tab.empty 100 (fun _ => true) Caps.allOk
      ConvOptions.plain { now := 0, randDigits := [], localeDate := "" } =
      (false, []) :=
  claim_C6_translateField_false "bogusTabs" Tab.empty 100 (fun _ => true)
    Caps.allOk ConvOptions.plain { now := 0, randDigits := [], localeDate := "" }
    (Or.inl (by decide))

theorem optionName_ne_empty (x : String) : "option_" ++ x ≠ "" := by
  intro h
  have h1 : 'o' :: 'p' :: 't' :: 'i' :: 'o' :: 'n' :: '_' :: x.data =
      ([] : List Char) := congrArg String.data h
  simp at h1

theorem optionName_ne_undefined (x : String) : "option_" ++ x ≠ "undefined" := by
  intro h
  have h1 : 'o' :: 'p' :: 't' :: 'i' :: 'o' :: 'n' :: '_' :: x.data =
      ['u', 'n', 'd', 'e', 'f', 'i', 'n', 'e', 'd'] := congrArg String.data h
  simp at h1

theorem optionName_ne_null (x : String) : "option_" ++ x ≠ "null" := by
  intro h
  have h1 : 'o' :: 'p' :: 't' :: 'i' :: 'o' :: 'n' :: '_' :: x.data =
      ['n', 'u', 'l', 'l'] := congrArg String.data h
  simp at h1

theorem radioValueOf_default (r : Radio) (i : ℕ)
    (hv : r.value.truthy = false) (ht : r.text.truthy = false) :
    radioValueOf r i = "option_" ++ natToString i := by
  unfold radioValueOf
  rw [jsOr_neg _ hv, jsOr_neg _ ht]
  simp [jsToString, optionName_ne_empty, optionName_ne_undefined,
    optionName_ne_null]

theorem radioOptionsAux_get (H : ℚ) (radios : List Radio) :
    ∀ (j i : ℕ) (hi : i < radios.length),
      (radioOptionsAux H radios j).get? i =
        some (radioValueOf (radios.get ⟨i, hi⟩) (j + i),
          convertDocuSignCoordinates (radios.get ⟨i, hi⟩).geom H
            "radioGroupTabs") := by
  induction radios with
  | nil => intro j i hi; simp at hi
  | cons r rs ih =>
    intro j i hi
    cases i with
    | zero => simp [radioOptionsAux]
    | succ i =>
      have h2 : j + (i + 1) = (j + 1) + i := by omega
      simp only [radioOptionsAux, List.get?_cons_succ, List.get_cons_succ, h2]
      exact ih (j + 1) i (by simpa using hi)

/-- C7 counterexample: a radio option whose `value` is missing receives the
option's `text` when that is present, not `option_<index>`: the source falls
back to `radio.value || radio.text || option_<i>`, so a first option with no
value and text `A` is named `A`, refuting the claim that a missing value
always yields `option_0`. -/
theorem claim_C7_counterexample :
    radioValueOf sampleRadioText 0 = "A" ∧
    ("A" : String) ≠ "option_0" ∧
    (translateRadioGroupFieldM
      { Tab.empty with
        groupName := .str "G", radios := some [sampleRadioText] }
      100 { llx := some 0, lly := some 0, urx := some 0, ury := some 0 }
      Caps.allOk).1 = true := by
  refine ⟨by decide, by decide, by decide⟩

/-- C7 (amended): each radio option's rectangle is computed by
`convertDocuSignCoordinates` from that option's own position data — the
whole group translation only reads the group tab's `groupName` and `radios`,
ignoring its coordinates and the pre-computed group rectangle — and an
option receives the value `option_<index>` when both its `value` and its
`text` are missing or falsy (or when the resolved value stringifies to
`undefined` or `null`), while a present `text` fills in for a missing
`value`. -/
theorem claim_C7_radio_geometry (fd1 fd2 : Tab) (H : ℚ) (c1 c2 : Rect)
    (caps : Caps) (radios : List Radio) (i : ℕ) (hi : i < radios.length)
    (hg : fd1.groupName = fd2.groupName) (hr : fd1.radios = fd2.radios) :
    translateRadioGroupFieldM fd1 H c1 caps =
      translateRadioGroupFieldM fd2 H c2 caps ∧
    (radioOptionsAux H radios 0).get? i =
      some (radioValueOf (radios.get ⟨i, hi⟩) i,
        convertDocuSignCoordinates (radios.get ⟨i, hi⟩).geom H
          "radioGroupTabs") ∧
    ((radios.get ⟨i, hi⟩).value.truthy = false →
      (radios.get ⟨i, hi⟩).text.truthy = false →
      radioValueOf (radios.get ⟨i, hi⟩) i = "option_" ++ natToString i) := by
  refine ⟨?_, ?_, fun hv ht => radioValueOf_default _ _ hv ht⟩
  · simp only [translateRadioGroupFieldM, hg, hr]
  · simpa using radioOptionsAux_get H radios 0 i hi

/-- C7 witness: two group tabs sharing radios but differing in position and
in pre-computed rectangle translate identically, the single option's entry
is built from the option's own data, and an option with both value and text
missing receives `option_0`. -/
theorem claim_C7_radio_geometry_witness :
    translateRadioGroupFieldM
      { Tab.empty with
        groupName := .str "G", xPosition := .num 1,
        radios := some [sampleRadio] }
      100 { llx := some 0, lly := some 0, urx := some 0, ury := some 0 }
      Caps.allOk =
    translateRadioGroupFieldM
      { Tab.empty with
        groupName := .str "G", xPosition := .num 99,
        radios := some [sampleRadio] }
      100 { llx := some 7, lly := some 7, urx := some 7, ury := some 7 }
      Caps.allOk ∧
    (radioOptionsAux 100 [sampleRadio] 0).get? 0 =
      some (radioValueOf ([sampleRadio].get ⟨0, by decide⟩) 0,
        convertDocuSignCoordinates ([sampleRadio].get ⟨0, by decide⟩).geom 100
          "radioGroupTabs") ∧
    (([sampleRadio].get ⟨0, by decide⟩).value.truthy = false →
      ([sampleRadio].get ⟨0, by decide⟩).text.truthy = false →
      radioValueOf ([sampleRadio].get ⟨0, by decide⟩) 0 =
        "option_" ++ natToString 0) :=
  claim_C7_radio_geometry _ _ 100 _ _ Caps.allOk [sampleRadio] 0 (by decide)
    rfl rfl

theorem processOneTab_skip (mapping : List PageMapEntry)
    (pageHeights : List ℚ) (t : Tab) (opts : ConvOptions) (caps : Caps)
    (i : ℕ)
    (hskip : mapping.find? (fun m => strictEq m.docId (tabDocKey t)) = none ∨
      ∃ entry, mapping.find? (fun m => strictEq m.docId (tabDocKey t)) =
          some entry ∧
        ∃ p, parseIntJS (jsOr t.pageNumber (jsOr t.page (.num 1))) = some p ∧
          pageHeights.length ≤ entry.startPage + (max 0 (p - 1)).toNat) :
    processOneTab mapping pageHeights t opts caps i = .ok [] := by
  rcases hskip with hf | ⟨entry, hf, p, hp, hge⟩
  · simp only [processOneTab]
    rw [hf]
  · simp only [processOneTab]
    rw [hf, hp]
    dsimp only
    rw [dif_neg (Nat.not_lt.mpr hge)]

/-- C8: an empty documents array, or a non-empty one in which no document
decodes, aborts the conversion with a single descriptive error before any
page processing; whereas a tab with no matching page mapping, or whose
destination page index falls outside the merged document, is skipped locally
(it contributes no field and raises no error) and processing continues with
the remaining tabs. -/
theorem claim_C8_error_handling (docs : List InputDoc) (tabs rest : List Tab)
    (t : Tab) (opts : ConvOptions) (caps : Caps)
    (mapping : List PageMapEntry) (pageHeights : List ℚ) (i : ℕ)
    (hne : docs ≠ [])
    (hdec : docs.filter (fun d => d.hasBase64 && d.loadable) = [])
    (hskip : mapping.find? (fun m => strictEq m.docId (tabDocKey t)) = none ∨
      ∃ entry, mapping.find? (fun m => strictEq m.docId (tabDocKey t)) =
          some entry ∧
        ∃ p, parseIntJS (jsOr t.pageNumber (jsOr t.page (.num 1))) = some p ∧
          pageHeights.length ≤ entry.startPage + (max 0 (p - 1)).toNat) :
    convertDocuSignToPDF [] tabs opts caps =
      .error "PDF conversion failed: No documents found in template JSON" ∧
    convertDocuSignToPDF docs tabs opts caps =
      .error "PDF conversion failed: No valid PDF documents found in template" ∧
    processOneTab mapping pageHeights t opts caps i = .ok [] ∧
    processTabsAux mapping pageHeights opts caps (t :: rest) i =
      processTabsAux mapping pageHeights opts caps rest (i + 1) := by
  have hone := processOneTab_skip mapping pageHeights t opts caps i hskip
  refine ⟨rfl, ?_, hone, ?_⟩
  · have h0 : docs.length ≠ 0 :=
      fun hln => hne (List.eq_nil_of_length_eq_zero hln)
    simp [convertDocuSignToPDF, convertInner, h0, hdec]
  · simp only [processTabsAux, hone]
    cases hrec : processTabsAux mapping pageHeights opts caps rest (i + 1) <;>
      simp

/-- C8 witness: an undecodable single-document template aborts with the
descriptive error, and a tab whose document id matches no mapping entry is
skipped while processing continues. -/
theorem claim_C8_error_handling_witness :
    convertDocuSignToPDF []
      [Tab.empty] ConvOptions.plain Caps.allOk =
      .error "PDF conversion failed: No documents found in template JSON" ∧
    convertDocuSignToPDF [badDoc]
      [Tab.empty] ConvOptions.plain Caps.allOk =
      .error "PDF conversion failed: No valid PDF documents found in template" ∧
    processOneTab [] [] Tab.empty ConvOptions.plain Caps.allOk 0 = .ok [] ∧
    processTabsAux [] [] ConvOptions.plain Caps.allOk (Tab.empty :: []) 0 =
      processTabsAux [] [] ConvOptions.plain Caps.allOk [] 1 :=
  claim_C8_error_handling [badDoc]
    [Tab.empty] [] Tab.empty ConvOptions.plain Caps.allOk [] [] 0
    (by decide) (by decide) (Or.inl rfl)

theorem buildMapping_docId (ds : List InputDoc) :
    ∀ (s : ℕ) (e : PageMapEntry), e ∈ buildMapping ds s →
      ∃ d ∈ ds, e.docId = d.documentId := by
  induction ds with
  | nil => intro s e he; simp [buildMapping] at he
  | cons d ds ih =>
    intro s e he
    simp only [buildMapping, List.mem_cons] at he
    rcases he with he | he
    · exact ⟨d, List.mem_cons_self d ds, by rw [he]⟩
    · rcases ih _ e he with ⟨d2, hd2, he2⟩
      exact ⟨d2, List.mem_cons_of_mem d hd2, he2⟩

theorem strictEq_num_tabKey (v : JSVal) (q : ℚ) (hv : v = .num q) (t : Tab) :
    strictEq v (tabDocKey t) = false := by
  subst hv
  unfold tabDocKey
  by_cases ht : t.documentId.truthy <;> simp [ht, strictEq]

theorem processTabsAux_skip_all (mapping : List PageMapEntry)
    (pageHeights : List ℚ) (opts : ConvOptions) (caps : Caps)
    (hall : ∀ t i, processOneTab mapping pageHeights t opts caps i = .ok []) :
    ∀ (tabs : List Tab) (i : ℕ),
      processTabsAux mapping pageHeights opts caps tabs i = .ok [] := by
  intro tabs
  induction tabs with
  | nil => intro i; rfl
  | cons t ts ih =>
    intro i
    simp [processTabsAux, hall, ih]

/-- C9: a document whose id is stored as a number can never be matched by
any tab — the lookup strictly compares the tab's id converted to a string
(or `null` when falsy) against the document's id kept unconverted, and
strict equality across types is always false — so in a template whose
documents all carry numeric ids every tab is silently skipped and the
output contains the merged pages but no fields at all. -/
theorem claim_C9_numeric_docId_mismatch (docs : List InputDoc)
    (tabs : List Tab) (opts : ConvOptions) (caps : Caps) (d : InputDoc)
    (t : Tab) (q : ℚ)
    (hd : d.documentId = .num q)
    (hall : ∀ dd ∈ docs, ∃ qq, dd.documentId = JSVal.num qq)
    (hne : docs ≠ [])
    (hdec : docs.filter (fun dd => dd.hasBase64 && dd.loadable) ≠ []) :
    strictEq d.documentId (tabDocKey t) = false ∧
    convertDocuSignToPDF docs tabs opts caps =
      .ok { pageCount := ((docs.filter (fun dd => dd.hasBase64 && dd.loadable)).map
          (fun dd => dd.pageHeights)).flatten.length, fields := [] } := by
  refine ⟨strictEq_num_tabKey _ q hd t, ?_⟩
  have hfind : ∀ t' : Tab,
      (buildMapping (docs.filter fun dd => dd.hasBase64 && dd.loadable)
        0).find? (fun m => strictEq m.docId (tabDocKey t')) = none := by
    intro t'
    rw [List.find?_eq_none]
    intro e he
    rcases buildMapping_docId _ _ _ he with ⟨d2, hd2, he2⟩
    rcases hall d2 (List.mem_of_mem_filter hd2) with ⟨qq, hq⟩
    rw [he2]
    simp [strictEq_num_tabKey _ qq hq t']
  have hone : ∀ (t' : Tab) (i : ℕ),
      processOneTab
        (buildMapping (docs.filter fun dd => dd.hasBase64 && dd.loadable) 0)
        ((docs.filter (fun dd => dd.hasBase64 && dd.loadable)).map
          (fun dd => dd.pageHeights)).flatten t' opts caps i = .ok [] := by
    intro t' i
    simp only [processOneTab]
    rw [hfind t']
  have h0 : docs.length ≠ 0 :=
    fun hln => hne (List.eq_nil_of_length_eq_zero hln)
  have h0f : (docs.filter (fun dd => dd.hasBase64 && dd.loadable)).length ≠ 0 :=
    fun hln => hdec (List.eq_nil_of_length_eq_zero hln)
  simp [convertDocuSignToPDF, convertInner, h0, h0f,
    processTabsAux_skip_all _ _ _ _ hone]

/-- C9 witness: one document with the numeric id 1 and one tab referencing
document 1 — numerically identical — still produce an output with the
merged page and zero fields, because the stringified tab id never strictly
equals the numeric document id. -/
theorem claim_C9_numeric_docId_mismatch_witness :
    strictEq (JSVal.num 1) (tabDocKey numIdTab) = false ∧
    convertDocuSignToPDF [numIdDoc] [numIdTab] ConvOptions.plain Caps.allOk =
      .ok { pageCount := (([numIdDoc].filter
          (fun dd => dd.hasBase64 && dd.loadable)).map
            (fun dd => dd.pageHeights)).flatten.length, fields := [] } := by
  have h := claim_C9_numeric_docId_mismatch [numIdDoc] [numIdTab]
    ConvOptions.plain Caps.allOk numIdDoc numIdTab 1
    rfl (by intro dd hdd; simp at hdd; rw [hdd]; exact ⟨1, rfl⟩)
    (by decide) (by decide)
  exact ⟨h.1, h.2⟩

end DocuSign
